import Mathlib

/-
  Verification of the pump-status decision engine of the Smart Irrigation
  service (src/main.py), as a shallow embedding in Lean 4.

  Modelling conventions:
  - Absolute timestamps (Python datetime values) are integers counting
    seconds; comparison of datetimes is integer comparison and the
    time-of-day component of a datetime is its value modulo 86400.
  - Time-of-day values (Python datetime.time) are triples of naturals;
    the Python constructor time(h, m, s) validates h <= 23, m <= 59,
    s <= 59 and raises otherwise, which we model with an Option result.
  - The pump_control singleton row and the pump_schedules table are
    modelled as an Option record and a list of rows; the SQL query
    "WHERE is_active = TRUE ORDER BY id DESC LIMIT 1" is modelled by
    queryActive.  A raised database error on a read is modelled by the
    readFault flag of the state: when it is set, the resolver body
    raises and control transfers to the enclosing except-handler.
  - Stored manual_target values are the strings "AUTO", "ON", "OFF";
    the abstract modes AUTO, MANUAL_ON, MANUAL_OFF of the specification
    correspond to those stored strings (the action MANUAL_ON stores
    "ON", the action MANUAL_OFF stores "OFF").
-/

deriving instance DecidableEq for Except

namespace SmartIrrigation

/-- Time-of-day value, model of Python datetime.time restricted to the
fields used by main.py (hour, minute, second). -/
structure Time where
  hour : Nat
  minute : Nat
  second : Nat
deriving DecidableEq, Repr

/-- Total seconds since midnight; Python comparison of in-range time
values coincides with comparison of this measure. -/
def Time.toSecs (t : Time) : Nat :=
  t.hour * 3600 + t.minute * 60 + t.second

/-- Boolean comparison of time values, model of the Python <= on
datetime.time objects (all constructed values are in range, where the
field-wise comparison agrees with comparison of total seconds). -/
def timeLE (a b : Time) : Bool :=
  a.toSecs ≤ b.toSecs

/-- Model of the Python constructor time(h, m, s): validates the ranges
and raises (None here) on an out-of-range argument. -/
def mkTime (h m s : Nat) : Option Time :=
  if h ≤ 23 ∧ m ≤ 59 ∧ s ≤ 59 then some ⟨h, m, s⟩ else none

/-- Model of the Python str.split on the separator ":" over the
character list of the string: "".split gives [""], and every separator
occurrence opens a new group. -/
def splitColon : List Char → List (List Char)
  | [] => [[]]
  | c :: rest =>
    if c = ':' then [] :: splitColon rest
    else
      match splitColon rest with
      | [] => [[c]]
      | g :: gs => (c :: g) :: gs

/-- Accumulator loop for decimal conversion: consumes digits, fails on
the first character that is not a decimal digit. -/
def digitsToNatAux : List Char → Nat → Option Nat
  | [], acc => some acc
  | c :: cs, acc =>
    if 48 ≤ c.toNat ∧ c.toNat ≤ 57 then digitsToNatAux cs (acc * 10 + (c.toNat - 48))
    else none

/-- Model of the Python int() call on the split parts: a nonempty
all-digit string converts to its decimal value, anything else raises
ValueError (None here).  Python additionally accepts surrounding
whitespace, an explicit sign and underscore separators; those inputs
are not exercised by time-of-day fields and are treated as failures,
matching the failure behaviour on every string built from digits and
ordinary text. -/
def pyInt (cs : List Char) : Option Nat :=
  match cs with
  | [] => none
  | _ => digitsToNatAux cs 0

/-- Model of the body of parse_time (src/main.py 127-134) up to its
except-handler: split the string on ":", convert the first two parts
and, when present, the third with int(), then build a time value.  Any
failure (fewer than two parts, a non-numeric part, an out-of-range
field) is None.  Parts beyond the third are ignored, exactly as in the
Python code, which never indexes past parts[2]. -/
def parseTimeOpt (s : String) : Option Time :=
  match splitColon s.data with
  | [] => none
  | [_] => none
  | p0 :: p1 :: rest =>
    match pyInt p0, pyInt p1 with
    | some h, some m =>
      match rest with
      | [] => mkTime h m 0
      | p2 :: _ =>
        match pyInt p2 with
        | some s2 => mkTime h m s2
        | none => none
    | _, _ => none

/-- Model of parse_time (src/main.py 127-134): on any parse failure the
except-handler logs and returns time(0, 0, 0). -/
def parse_time (s : String) : Time :=
  (parseTimeOpt s).getD ⟨0, 0, 0⟩

/-- Model of is_in_schedule (src/main.py 136-151): parse both boundary
strings, then test the same-day window inclusively when on_t <= off_t
and the overnight window otherwise.  The except-handler of the Python
function is unreachable because parse_time never raises and time
comparison never raises, so it does not appear here. -/
def is_in_schedule (now_t : Time) (on_str off_str : String) : Bool :=
  let on_t := parse_time on_str
  let off_t := parse_time off_str
  if timeLE on_t off_t then
    timeLE on_t now_t && timeLE now_t off_t
  else
    timeLE on_t now_t || timeLE now_t off_t

/-- Time-of-day component of an absolute timestamp in seconds, the
model of datetime.time() on our integer datetimes. -/
def timeOfDay (dt : Int) : Time :=
  let s := (dt % 86400).toNat
  ⟨s / 3600, s % 3600 / 60, s % 60⟩

/-- Row of the pump_control table (id = 1 singleton). -/
structure ControlRow where
  manual_target : String
  pause_end_time : Option Int
deriving DecidableEq, Repr

/-- Row of the pump_schedules table. -/
structure ScheduleRow where
  id : Nat
  on_time : String
  off_time : String
  is_active : Bool
deriving DecidableEq, Repr

/-- Database state visible to the resolver.  readFault models a
database read raising mysql.connector.Error during the call. -/
structure DBState where
  control : Option ControlRow
  schedules : List ScheduleRow
  readFault : Bool
deriving DecidableEq, Repr

/-- Model of the SQL query SELECT ... FROM pump_schedules WHERE
is_active = TRUE ORDER BY id DESC LIMIT 1: among active rows, the one
with the largest id, if any. -/
def queryActive (rows : List ScheduleRow) : Option ScheduleRow :=
  (rows.filter (fun r => r.is_active)).foldl
    (fun acc r =>
      match acc with
      | none => some r
      | some b => if b.id < r.id then some r else some b)
    none

/-- Model of the PRIORITY 3 block of calculate_pump_status
(src/main.py 203-232): in AUTO mode, look up the active schedule; with
none the result is OFF, otherwise ON exactly when now is inside the
window.  The strftime conversion of the Python code is the identity in
this model, where schedule rows already hold their time strings. -/
def scheduleStatus (db : DBState) (now_dt : Int) : String :=
  match queryActive db.schedules with
  | some sched =>
    if is_in_schedule (timeOfDay now_dt) sched.on_time sched.off_time
    then "ON" else "OFF"
  | none => "OFF"

/-- Model of the PRIORITY 2 and PRIORITY 3 blocks of
calculate_pump_status (src/main.py 191-235): manual_target "ON" gives
ON, "OFF" gives OFF, "AUTO" consults the schedule, and any other stored
value falls through to the final return "OFF". -/
def modeStatus (db : DBState) (manual_target : String) (now_dt : Int) : String :=
  if manual_target = "ON" then "ON"
  else if manual_target = "OFF" then "OFF"
  else if manual_target = "AUTO" then scheduleStatus db now_dt
  else "OFF"

/-- Effect of the SQL statement UPDATE pump_control SET pause_end_time
= NULL WHERE id = 1 (src/main.py 185). -/
def clearPause (db : DBState) : DBState :=
  ⟨db.control.map (fun c => ⟨c.manual_target, none⟩), db.schedules, db.readFault⟩

/-- Model of calculate_pump_status (src/main.py 153-241).  The result
pairs the returned status string with the database state after the
call (the only write is the pause-clearing one).  When readFault is
set the first SELECT raises before any write, the except-handler at
lines 237-241 returns "OFF", and the state is unchanged; the function
is total, so no exception ever propagates to the caller.  After
clearing an expired pause the Python code re-reads the control row;
sequentially that refreshed row is the old row with pause_end_time
nulled, which is what this model passes on. -/
def calculate_pump_status (db : DBState) (now_dt : Int) : String × DBState :=
  if db.readFault then ("OFF", db)
  else
    match db.control with
    | none => ("OFF", db)
    | some control =>
      match control.pause_end_time with
      | some pause_dt =>
        if now_dt < pause_dt then ("OFF", db)
        else
          let db2 := clearPause db
          (modeStatus db2 control.manual_target now_dt, db2)
      | none => (modeStatus db control.manual_target now_dt, db)

/-- Model of the Python str.upper() on ASCII action strings: uppercase
every character. -/
def pyUpper (s : String) : String :=
  ⟨s.data.map Char.toUpper⟩

/-- Request body of POST /api/control/update (src/main.py 39-41). -/
structure ControlUpdate where
  action : String
  minutes : Option Int
deriving DecidableEq, Repr

/-- Model of update_control (src/main.py 464-540) restricted to its
decision on the ControlState: the action string is uppercased, then
dispatched.  PAUSE resolves its minutes with the Python expression
update.minutes or 30, whose falsy inputs are None and 0, and sets
pause_end_time to now plus that many minutes; the three mode actions
store their target and null the pause; any other action raises
HTTPException(400) before any write, modelled by an error result paired
with the unchanged state. -/
def update_control (db : DBState) (now : Int) (upd : ControlUpdate) :
    DBState × Except String String :=
  let action := pyUpper upd.action
  if action = "PAUSE" then
    let minutes : Int :=
      match upd.minutes with
      | some m => if m = 0 then 30 else m
      | none => 30
    let pause_until := now + minutes * 60
    (⟨db.control.map (fun c => ⟨c.manual_target, some pause_until⟩),
      db.schedules, db.readFault⟩,
     Except.ok ("Pause set for " ++ toString minutes ++ " minutes"))
  else if action = "MANUAL_ON" then
    (⟨db.control.map (fun _ => ⟨"ON", none⟩), db.schedules, db.readFault⟩,
     Except.ok "Manual ON activated")
  else if action = "MANUAL_OFF" then
    (⟨db.control.map (fun _ => ⟨"OFF", none⟩), db.schedules, db.readFault⟩,
     Except.ok "Manual OFF activated")
  else if action = "AUTO" then
    (⟨db.control.map (fun _ => ⟨"AUTO", none⟩), db.schedules, db.readFault⟩,
     Except.ok "Auto mode activated")
  else
    (db, Except.error "Invalid action")

/-- Helper: a schedule list with no active row makes the active-schedule
query come back empty. -/
lemma queryActive_eq_none (rows : List ScheduleRow)
    (h : ∀ r ∈ rows, r.is_active = false) : queryActive rows = none := by
  have hf : rows.filter (fun r => r.is_active) = [] := by
    rw [List.filter_eq_nil_iff]
    intro a ha
    simp [h a ha]
  simp [queryActive, hf]

/-- C1: whenever pause_end_time is set and now is strictly before it,
calculate_pump_status returns OFF, whatever the stored mode and whatever
schedules exist; the state is untouched and no lower-priority rule can
affect the result. -/
theorem C1_pause_active_forces_off (db : DBState) (now_dt : Int)
    (ctrl : ControlRow) (p : Int)
    (hok : db.readFault = false) (hc : db.control = some ctrl)
    (hp : ctrl.pause_end_time = some p) (hlt : now_dt < p) :
    (calculate_pump_status db now_dt).1 = "OFF" := by
  simp [calculate_pump_status, hok, hc, hp, hlt]

/-- Witness for C1 at a concrete state: mode "ON" (MANUAL_ON) with a
pause until 100 still yields OFF at time 50. -/
theorem C1_witness :
    (calculate_pump_status ⟨some ⟨"ON", some 100⟩, [], false⟩ 50).1 = "OFF" :=
  C1_pause_active_forces_off ⟨some ⟨"ON", some 100⟩, [], false⟩ 50
    ⟨"ON", some 100⟩ 100 rfl rfl rfl (by decide)

/-- C2: when pause_end_time is set and now has reached it, the single
calculate_pump_status call leaves a state whose pause_end_time is null
with the stored mode untouched, and the returned status is the one a
call on the pause-cleared state with that same prior mode computes, so
expiry neither resets nor changes the mode. -/
theorem C2_pause_expiry_clears (db : DBState) (now_dt p : Int)
    (ctrl : ControlRow)
    (hok : db.readFault = false) (hc : db.control = some ctrl)
    (hp : ctrl.pause_end_time = some p) (hge : p ≤ now_dt) :
    (calculate_pump_status db now_dt).2 = clearPause db ∧
    (calculate_pump_status db now_dt).2.control = some ⟨ctrl.manual_target, none⟩ ∧
    (calculate_pump_status db now_dt).1
      = (calculate_pump_status (clearPause db) now_dt).1 := by
  have hnlt : ¬ now_dt < p := not_lt.mpr hge
  refine ⟨?_, ?_, ?_⟩
  · simp [calculate_pump_status, hok, hc, hp, hnlt]
  · simp [calculate_pump_status, hok, hc, hp, hnlt, clearPause]
  · simp [calculate_pump_status, hok, hc, hp, hnlt, clearPause]

/-- Witness for C2 at a concrete state: mode "ON" with a pause until
100, resolved at time 200. -/
theorem C2_witness :
    (calculate_pump_status ⟨some ⟨"ON", some 100⟩, [], false⟩ 200).2
      = clearPause ⟨some ⟨"ON", some 100⟩, [], false⟩ ∧
    (calculate_pump_status ⟨some ⟨"ON", some 100⟩, [], false⟩ 200).2.control
      = some ⟨"ON", none⟩ ∧
    (calculate_pump_status ⟨some ⟨"ON", some 100⟩, [], false⟩ 200).1
      = (calculate_pump_status (clearPause ⟨some ⟨"ON", some 100⟩, [], false⟩) 200).1 :=
  C2_pause_expiry_clears ⟨some ⟨"ON", some 100⟩, [], false⟩ 200 100
    ⟨"ON", some 100⟩ rfl rfl rfl (by decide)

/-- C3: with no active pause (pause_end_time null or already expired),
stored mode "ON" (MANUAL_ON) yields ON and stored mode "OFF"
(MANUAL_OFF) yields OFF, for every schedule list and every now, so the
manual override never consults the schedule. -/
theorem C3_manual_override (db : DBState) (now_dt : Int) (ctrl : ControlRow)
    (hok : db.readFault = false) (hc : db.control = some ctrl)
    (hnp : ∀ p, ctrl.pause_end_time = some p → p ≤ now_dt) :
    (ctrl.manual_target = "ON" → (calculate_pump_status db now_dt).1 = "ON") ∧
    (ctrl.manual_target = "OFF" → (calculate_pump_status db now_dt).1 = "OFF") := by
  cases hpe : ctrl.pause_end_time with
  | none =>
    constructor <;> intro hm <;>
      simp [calculate_pump_status, hok, hc, hpe, modeStatus, hm]
  | some p =>
    have hnlt : ¬ now_dt < p := not_lt.mpr (hnp p hpe)
    constructor <;> intro hm <;>
      simp [calculate_pump_status, hok, hc, hpe, hnlt, modeStatus, hm]

/-- Witness for C3 at a concrete state: mode "ON", no pause, an active
schedule 07:00-18:00 present, resolved at 19:00 (inside no window). -/
theorem C3_witness :
    (("ON" : String) = "ON" →
      (calculate_pump_status
        ⟨some ⟨"ON", none⟩, [⟨1, "07:00:00", "18:00:00", true⟩], false⟩ 68400).1 = "ON") ∧
    (("ON" : String) = "OFF" →
      (calculate_pump_status
        ⟨some ⟨"ON", none⟩, [⟨1, "07:00:00", "18:00:00", true⟩], false⟩ 68400).1 = "OFF") :=
  C3_manual_override ⟨some ⟨"ON", none⟩, [⟨1, "07:00:00", "18:00:00", true⟩], false⟩
    68400 ⟨"ON", none⟩ rfl rfl (by intro p hp; cases hp)

/-- C4: for every time-of-day triple, is_in_schedule holds exactly when
the same-day window test on <= now <= off applies if on <= off, and the
overnight test now >= on or now <= off applies if on > off, with all
bounds inclusive. -/
theorem C4_window_matcher (now_t on_t off_t : Time) (on_str off_str : String)
    (hOn : parse_time on_str = on_t) (hOff : parse_time off_str = off_t) :
    is_in_schedule now_t on_str off_str = true ↔
      (if on_t.toSecs ≤ off_t.toSecs
       then on_t.toSecs ≤ now_t.toSecs ∧ now_t.toSecs ≤ off_t.toSecs
       else now_t.toSecs ≥ on_t.toSecs ∨ now_t.toSecs ≤ off_t.toSecs) := by
  simp only [is_in_schedule, hOn, hOff]
  by_cases h : on_t.toSecs ≤ off_t.toSecs <;>
    simp [timeLE, h, ge_iff_le]

/-- Witness for C4 at a concrete overnight window: now 23:00:00 inside
the window 22:00:00-06:00:00. -/
theorem C4_witness :
    is_in_schedule ⟨23, 0, 0⟩ "22:00:00" "06:00:00" = true ↔
      (if Time.toSecs ⟨22, 0, 0⟩ ≤ Time.toSecs ⟨6, 0, 0⟩
       then Time.toSecs ⟨22, 0, 0⟩ ≤ Time.toSecs ⟨23, 0, 0⟩ ∧
            Time.toSecs ⟨23, 0, 0⟩ ≤ Time.toSecs ⟨6, 0, 0⟩
       else Time.toSecs ⟨23, 0, 0⟩ ≥ Time.toSecs ⟨22, 0, 0⟩ ∨
            Time.toSecs ⟨23, 0, 0⟩ ≤ Time.toSecs ⟨6, 0, 0⟩) :=
  C4_window_matcher ⟨23, 0, 0⟩ ⟨22, 0, 0⟩ ⟨6, 0, 0⟩ "22:00:00" "06:00:00"
    (by decide) (by decide)

/-- Counterexample to C5: the schedule row with the malformed on_time
string "bad" is not excluded and the resolver does not return OFF: at
12:00:00 in AUTO mode with no pause it returns ON, because parse_time
silently substitutes 00:00:00 for the malformed string and the window
00:00:00-18:00:00 contains noon. -/
theorem C5_counterexample :
    parseTimeOpt "bad" = none ∧
    (calculate_pump_status
      ⟨some ⟨"AUTO", none⟩, [⟨1, "bad", "18:00:00", true⟩], false⟩ 43200).1 = "ON" := by
  constructor
  · decide
  · decide

/-- C5 amended: a malformed time-of-day string is not excluded; the
except-handler of parse_time replaces it by the time 00:00:00 and the
schedule window is evaluated with that substitute, identically to a
schedule whose boundary string is "00:00:00". -/
theorem C5_amended_midnight_substitute (s : String) (h : parseTimeOpt s = none)
    (now_t : Time) (off_str : String) :
    parse_time s = ⟨0, 0, 0⟩ ∧
    is_in_schedule now_t s off_str = is_in_schedule now_t "00:00:00" off_str := by
  have h0 : parse_time s = ⟨0, 0, 0⟩ := by simp [parse_time, h]
  have h00 : parse_time "00:00:00" = ⟨0, 0, 0⟩ := by decide
  exact ⟨h0, by simp [is_in_schedule, h0, h00]⟩

/-- Witness for the amended C5 at the malformed string "oops" and noon
against the off boundary 18:00:00. -/
theorem C5_amended_witness :
    parseTimeOpt "oops" = none ∧
    (parse_time "oops" = ⟨0, 0, 0⟩ ∧
     is_in_schedule ⟨12, 0, 0⟩ "oops" "18:00:00"
       = is_in_schedule ⟨12, 0, 0⟩ "00:00:00" "18:00:00") :=
  ⟨by decide, C5_amended_midnight_substitute "oops" (by decide) ⟨12, 0, 0⟩ "18:00:00"⟩

/-- C6: when the control row is missing or a state read raises, the
resolver returns OFF with the state unchanged; the function is total,
so no exception reaches the caller and the policy fails safe to OFF,
never open to ON. -/
theorem C6_fail_safe_off (db : DBState) (now_dt : Int)
    (h : db.readFault = true ∨ db.control = none) :
    calculate_pump_status db now_dt = ("OFF", db) := by
  rcases h with h | h
  · simp [calculate_pump_status, h]
  · cases hf : db.readFault <;> simp [calculate_pump_status, h, hf]

/-- Witness for C6 at a concrete state with no control row. -/
theorem C6_witness :
    calculate_pump_status ⟨none, [], false⟩ 0 = ("OFF", ⟨none, [], false⟩) :=
  C6_fail_safe_off ⟨none, [], false⟩ 0 (Or.inr rfl)

/-- Counterexample to C7: a PAUSE update with minutes 0 at time 1000
sets pause_end_time to 2800 seconds, which is now plus the 30-minute
default, not now plus the requested 0 minutes. -/
theorem C7_counterexample :
    (update_control ⟨some ⟨"AUTO", none⟩, [], false⟩ 1000 ⟨"PAUSE", some 0⟩).1.control
      = some ⟨"AUTO", some 2800⟩ ∧ (2800 : Int) ≠ 1000 + 0 * 60 := by
  constructor <;> decide

/-- C7 amended: a PAUSE update with a provided nonzero minutes value m
sets pause_end_time to now plus m minutes, and for every minutes value,
provided or not, the stored mode manual_target is left unchanged
whatever its prior value (a zero or omitted minutes value defaults to
30 minutes instead). -/
theorem C7_amended_pause_effect (db : DBState) (now m : Int) (ctrl : ControlRow)
    (hm : m ≠ 0) (hc : db.control = some ctrl) :
    (update_control db now ⟨"PAUSE", some m⟩).1.control
      = some ⟨ctrl.manual_target, some (now + m * 60)⟩ ∧
    (∀ mins : Option Int,
      ((update_control db now ⟨"PAUSE", mins⟩).1.control.map
        (fun c => c.manual_target)) = db.control.map (fun c => c.manual_target)) := by
  have hp : pyUpper "PAUSE" = "PAUSE" := by decide
  constructor
  · simp [update_control, hp, hm, hc]
  · intro mins
    simp [update_control, hp, hc]

/-- Witness for the amended C7: PAUSE for 5 minutes at time 100 on a
state in mode "OFF". -/
theorem C7_amended_witness :
    ((update_control ⟨some ⟨"OFF", none⟩, [], false⟩ 100 ⟨"PAUSE", some 5⟩).1.control
      = some ⟨"OFF", some (100 + 5 * 60)⟩) ∧
    (∀ mins : Option Int,
      ((update_control ⟨some ⟨"OFF", none⟩, [], false⟩ 100 ⟨"PAUSE", mins⟩).1.control.map
        (fun c => c.manual_target))
        = (some (⟨"OFF", none⟩ : ControlRow)).map (fun c => c.manual_target)) :=
  C7_amended_pause_effect ⟨some ⟨"OFF", none⟩, [], false⟩ 100 5 ⟨"OFF", none⟩
    (by decide) rfl

/-- Counterexample to C8: the action string "pause" is none of the four
literal strings PAUSE, MANUAL_ON, MANUAL_OFF, AUTO, yet the update is
not rejected: it succeeds and modifies the control row, because the
handler uppercases the action before dispatching. -/
theorem C8_counterexample :
    (("pause" : String) ≠ "PAUSE" ∧ ("pause" : String) ≠ "MANUAL_ON" ∧
     ("pause" : String) ≠ "MANUAL_OFF" ∧ ("pause" : String) ≠ "AUTO") ∧
    (update_control ⟨some ⟨"AUTO", none⟩, [], false⟩ 0 ⟨"pause", none⟩).2
      = Except.ok ("Pause set for " ++ toString (30 : Int) ++ " minutes") ∧
    (update_control ⟨some ⟨"AUTO", none⟩, [], false⟩ 0 ⟨"pause", none⟩).1
      ≠ ⟨some ⟨"AUTO", none⟩, [], false⟩ := by
  refine ⟨by decide, by decide, by decide⟩

/-- C8 amended: every update whose action string, after uppercasing, is
none of PAUSE, MANUAL_ON, MANUAL_OFF, AUTO is rejected with the
invalid-input error surfaced to the caller, and the state is returned
unchanged, no field modified. -/
theorem C8_amended_invalid_rejected (db : DBState) (now : Int) (upd : ControlUpdate)
    (h1 : pyUpper upd.action ≠ "PAUSE") (h2 : pyUpper upd.action ≠ "MANUAL_ON")
    (h3 : pyUpper upd.action ≠ "MANUAL_OFF") (h4 : pyUpper upd.action ≠ "AUTO") :
    update_control db now upd = (db, Except.error "Invalid action") := by
  simp [update_control, h1, h2, h3, h4]

/-- Witness for the amended C8: the action "resume" is rejected and the
state is returned unchanged. -/
theorem C8_amended_witness :
    update_control ⟨some ⟨"ON", some 7⟩, [], false⟩ 0 ⟨"resume", none⟩
      = (⟨some ⟨"ON", some 7⟩, [], false⟩, Except.error "Invalid action") :=
  C8_amended_invalid_rejected ⟨some ⟨"ON", some 7⟩, [], false⟩ 0 ⟨"resume", none⟩
    (by decide) (by decide) (by decide) (by decide)

/-- C9: in mode "AUTO" with no active pause and no active schedule row,
calculate_pump_status returns OFF. -/
theorem C9_auto_no_schedule_off (db : DBState) (now_dt : Int) (ctrl : ControlRow)
    (hok : db.readFault = false) (hc : db.control = some ctrl)
    (hm : ctrl.manual_target = "AUTO")
    (hnp : ∀ p, ctrl.pause_end_time = some p → p ≤ now_dt)
    (hs : ∀ r ∈ db.schedules, r.is_active = false) :
    (calculate_pump_status db now_dt).1 = "OFF" := by
  have hq : queryActive db.schedules = none := queryActive_eq_none db.schedules hs
  cases hpe : ctrl.pause_end_time with
  | none =>
    simp [calculate_pump_status, hok, hc, hpe, modeStatus, hm, scheduleStatus, hq]
  | some p =>
    have hnlt : ¬ now_dt < p := not_lt.mpr (hnp p hpe)
    simp [calculate_pump_status, hok, hc, hpe, hnlt, modeStatus, hm,
      scheduleStatus, clearPause, hq]

/-- Witness for C9 at a concrete state: mode "AUTO", no pause, one
schedule row present but inactive, resolved at noon. -/
theorem C9_witness :
    (calculate_pump_status
      ⟨some ⟨"AUTO", none⟩, [⟨1, "07:00:00", "18:00:00", false⟩], false⟩ 43200).1 = "OFF" :=
  C9_auto_no_schedule_off
    ⟨some ⟨"AUTO", none⟩, [⟨1, "07:00:00", "18:00:00", false⟩], false⟩ 43200
    ⟨"AUTO", none⟩ rfl rfl rfl (by intro p hp; cases hp) (by decide)

/-- C10: a PAUSE update with an omitted minutes value or with minutes 0
behaves exactly as a PAUSE update with minutes 30: the whole outcome
coincides, and pause_end_time becomes now plus 30 minutes, so a
requested zero-minute pause is not a no-op. -/
theorem C10_pause_default_thirty (db : DBState) (now : Int) (ctrl : ControlRow)
    (hc : db.control = some ctrl) :
    update_control db now ⟨"PAUSE", none⟩ = update_control db now ⟨"PAUSE", some 30⟩ ∧
    update_control db now ⟨"PAUSE", some 0⟩ = update_control db now ⟨"PAUSE", some 30⟩ ∧
    (update_control db now ⟨"PAUSE", none⟩).1.control
      = some ⟨ctrl.manual_target, some (now + 30 * 60)⟩ ∧
    (update_control db now ⟨"PAUSE", some 0⟩).1.control
      = some ⟨ctrl.manual_target, some (now + 30 * 60)⟩ := by
  have hp : pyUpper "PAUSE" = "PAUSE" := by decide
  refine ⟨?_, ?_, ?_, ?_⟩ <;> simp [update_control, hp, hc]

/-- Witness for C10 at a concrete state in mode "OFF" at time 60. -/
theorem C10_witness :
    update_control ⟨some ⟨"OFF", none⟩, [], false⟩ 60 ⟨"PAUSE", none⟩
      = update_control ⟨some ⟨"OFF", none⟩, [], false⟩ 60 ⟨"PAUSE", some 30⟩ ∧
    update_control ⟨some ⟨"OFF", none⟩, [], false⟩ 60 ⟨"PAUSE", some 0⟩
      = update_control ⟨some ⟨"OFF", none⟩, [], false⟩ 60 ⟨"PAUSE", some 30⟩ ∧
    (update_control ⟨some ⟨"OFF", none⟩, [], false⟩ 60 ⟨"PAUSE", none⟩).1.control
      = some ⟨"OFF", some (60 + 30 * 60)⟩ ∧
    (update_control ⟨some ⟨"OFF", none⟩, [], false⟩ 60 ⟨"PAUSE", some 0⟩).1.control
      = some ⟨"OFF", some (60 + 30 * 60)⟩ :=
  C10_pause_default_thirty ⟨some ⟨"OFF", none⟩, [], false⟩ 60 ⟨"OFF", none⟩ rfl

end SmartIrrigation
